import Mathlib

/-!
Shallow embedding of the multi-remote synchronization tool's core
(`src/core/repository.rs`, `src/core/error_handler.rs`,
`src/core/git_operations.rs`, `src/core/batch_operations.rs`).

The external version-control engine (libgit2) is modelled as an oracle
record `GitEngine` whose fields give the outcome of each engine primitive;
every pure data-model function and every piece of control flow is
translated directly from the Rust source.
-/

/-- Substring search helper: `isPre n h` is true iff the char list `n`
is an initial segment of `h`. -/
def isPre : List Char → List Char → Bool
  | [], _ => true
  | _ :: _, [] => false
  | c :: cs, d :: ds => c == d && isPre cs ds

/-- `listContainsSub n h` is true iff `n` occurs as a contiguous sublist of `h`. -/
def listContainsSub (needle : List Char) : List Char → Bool
  | [] => isPre needle []
  | d :: ds => isPre needle (d :: ds) || listContainsSub needle ds

/-- Rust's `str::contains` for substring patterns: `containsSub needle hay`. -/
def containsSub (needle hay : String) : Bool :=
  listContainsSub needle.data hay.data

/-- Lower-casing of a string, character by character. -/
def toLowerString (s : String) : String :=
  ⟨s.data.map Char.toLower⟩

/-- `AuthType` from `src/core/repository.rs`. -/
inductive AuthType where
  | SSH
  | Token
  | Default
deriving DecidableEq

/-- `RepositoryInfo` from `src/core/repository.rs`. -/
structure RepositoryInfo where
  name : String
  url : String
  auth_type : AuthType
  auth_token : String
  ssh_key_path : String
  group : String
deriving DecidableEq

/-- `RepositoryInfo::new` from `src/core/repository.rs`. -/
def RepositoryInfo.new (name url : String) : RepositoryInfo :=
  ⟨name, url, AuthType.Default, "", "", ""⟩

/-- `RepositoryGroup` from `src/core/repository.rs`. -/
structure RepositoryGroup where
  name : String
  description : String
  repository_names : List String
deriving DecidableEq

/-- `RepositoryGroup::new` from `src/core/repository.rs`. -/
def RepositoryGroup.new (name description : String) : RepositoryGroup :=
  ⟨name, description, []⟩

/-- `RepositoryGroup::add_repository`: append the name unless already present. -/
def RepositoryGroup.add_repository (g : RepositoryGroup) (repoName : String) : RepositoryGroup :=
  if g.repository_names.contains repoName then g
  else ⟨g.name, g.description, g.repository_names ++ [repoName]⟩

/-- `RepositoryGroup::remove_repository`: retain every name different from `repoName`. -/
def RepositoryGroup.remove_repository (g : RepositoryGroup) (repoName : String) : RepositoryGroup :=
  ⟨g.name, g.description, g.repository_names.filter (fun n => n ≠ repoName)⟩

/-- `RepoConfig` from `src/core/repository.rs`. -/
structure RepoConfig where
  repositories : List RepositoryInfo
  config_name : String
  groups : List RepositoryGroup
deriving DecidableEq

/-- `RepoConfig::new`. -/
def RepoConfig.new : RepoConfig :=
  ⟨[], "default", []⟩

/-- `RepoConfig::add_repository`. -/
def RepoConfig.add_repository (c : RepoConfig) (repo : RepositoryInfo) : RepoConfig :=
  ⟨c.repositories ++ [repo], c.config_name, c.groups⟩

/-- `RepoConfig::remove_repository`: guarded by `index < len`; first removes the
endpoint's name from every group, then removes the endpoint at `index`. -/
def RepoConfig.remove_repository (c : RepoConfig) (index : Nat) : RepoConfig :=
  if h : index < c.repositories.length then
    let repoName := (c.repositories.get ⟨index, h⟩).name
    ⟨c.repositories.eraseIdx index, c.config_name,
      c.groups.map (fun g => g.remove_repository repoName)⟩
  else c

/-- `RepoConfig::add_group`. -/
def RepoConfig.add_group (c : RepoConfig) (g : RepositoryGroup) : RepoConfig :=
  ⟨c.repositories, c.config_name, c.groups ++ [g]⟩

/-- `RepoConfig::remove_group`: retain every group whose name differs. -/
def RepoConfig.remove_group (c : RepoConfig) (groupName : String) : RepoConfig :=
  ⟨c.repositories, c.config_name, c.groups.filter (fun g => g.name ≠ groupName)⟩

/-- `RepoConfig::get_group`. -/
def RepoConfig.get_group (c : RepoConfig) (groupName : String) : Option RepositoryGroup :=
  c.groups.find? (fun g => g.name == groupName)

/-- `RepoConfig::get_repositories_in_group`: the registry's endpoints, in
registry insertion order, filtered by membership of the named group. -/
def RepoConfig.get_repositories_in_group (c : RepoConfig) (groupName : String) :
    List RepositoryInfo :=
  match c.get_group groupName with
  | some g => c.repositories.filter (fun repo => g.repository_names.contains repo.name)
  | none => []

/-- `ErrorType` from `src/core/error_handler.rs`. -/
inductive ErrorType where
  | Authentication
  | Network
  | Repository
  | Permission
  | Unknown
deriving DecidableEq

/-- `GitOperationError` from `src/core/error_handler.rs`. -/
structure GitOperationError where
  operation : String
  repository : String
  error_message : String
  error_type : ErrorType
deriving DecidableEq

/-- The classification chain inside `handle_git_error`
(`src/core/error_handler.rs`, lines 56-80): case-sensitive containment
checks over the exact keyword variants present in the source. -/
def classifyErrorMessage (m : String) : ErrorType :=
  if containsSub "authentication" m || containsSub "Authentication" m ||
     containsSub "401" m || containsSub "403" m || containsSub "Unauthorized" m then
    ErrorType.Authentication
  else if containsSub "network" m || containsSub "Network" m ||
          containsSub "connection" m || containsSub "Connection" m ||
          containsSub "timeout" m || containsSub "Timeout" m then
    ErrorType.Network
  else if containsSub "permission" m || containsSub "Permission" m ||
          containsSub "access denied" m then
    ErrorType.Permission
  else if containsSub "repository" m || containsSub "Repository" m ||
          containsSub "not found" m || containsSub "corrupt" m then
    ErrorType.Repository
  else
    ErrorType.Unknown

/-- `handle_git_error` from `src/core/error_handler.rs`; the raw error is
modelled by its display string. -/
def handle_git_error (operation : String) (repoInfo : RepositoryInfo)
    (errorMessage : String) : GitOperationError :=
  ⟨operation, repoInfo.name, errorMessage, classifyErrorMessage errorMessage⟩

/-- `GitOperationError::format_user_message`: one fixed template per kind. -/
def GitOperationError.format_user_message (e : GitOperationError) : String :=
  match e.error_type with
  | ErrorType.Authentication =>
    "Authentication failed for repository \x27" ++ e.repository ++
      "\x27. Please check your credentials."
  | ErrorType.Network =>
    "Network error while " ++ e.operation ++ " repository \x27" ++ e.repository ++
      "\x27. Please check your connection."
  | ErrorType.Repository =>
    "Repository error while " ++ e.operation ++ " \x27" ++ e.repository ++
      "\x27. The repository may be corrupted or inaccessible."
  | ErrorType.Permission =>
    "Permission denied while " ++ e.operation ++ " repository \x27" ++ e.repository ++
      "\x27. Check your access rights."
  | ErrorType.Unknown =>
    "Error while " ++ e.operation ++ " repository \x27" ++ e.repository ++
      "\x27: " ++ e.error_message

/-- `format_error_result` from `src/core/error_handler.rs`. -/
def format_error_result (operation : String) (repoInfo : RepositoryInfo)
    (result : Except String Unit) : String × String :=
  match result with
  | Except.ok _ => (repoInfo.name, "Success")
  | Except.error e =>
    (repoInfo.name, (handle_git_error operation repoInfo e).format_user_message)

/-- The concrete credential value handed to the transport, mirroring the
`git2::Cred` constructor invoked by a credentials callback. -/
inductive CredKind where
  | sshKey (username : String) (keyPath : String)
  | userpassPlaintext (username : String) (password : String)
  | defaultCred
deriving DecidableEq

/-- A credentials-callback result: either a single constructor call, or a
primary attempt chained with an `or_else` fallback. -/
inductive CredAttempt where
  | direct (c : CredKind)
  | withFallback (c : CredKind) (fallback : CredKind)
deriving DecidableEq

/-- The credentials callback installed by `push_to_remote`
(`src/core/git_operations.rs`, lines 61-94), as a function of the
environment home directory, the endpoint and the engine-supplied
`username_from_url`. -/
def pushCredCallback (home : String) (info : RepositoryInfo)
    (usernameFromUrl : Option String) : CredAttempt :=
  match info.auth_type with
  | AuthType.SSH =>
    CredAttempt.direct (CredKind.sshKey (usernameFromUrl.getD "git") info.ssh_key_path)
  | AuthType.Token =>
    CredAttempt.direct (CredKind.userpassPlaintext "token" info.auth_token)
  | AuthType.Default =>
    match usernameFromUrl with
    | some username =>
      CredAttempt.withFallback (CredKind.sshKey username (home ++ "/.ssh/id_rsa"))
        CredKind.defaultCred
    | none => CredAttempt.withFallback CredKind.defaultCred CredKind.defaultCred

/-- The credentials callback installed by `pull_from_remote`
(`src/core/git_operations.rs`, lines 121-153); textually identical to the
push callback in the source. -/
def pullCredCallback (home : String) (info : RepositoryInfo)
    (usernameFromUrl : Option String) : CredAttempt :=
  match info.auth_type with
  | AuthType.SSH =>
    CredAttempt.direct (CredKind.sshKey (usernameFromUrl.getD "git") info.ssh_key_path)
  | AuthType.Token =>
    CredAttempt.direct (CredKind.userpassPlaintext "token" info.auth_token)
  | AuthType.Default =>
    match usernameFromUrl with
    | some username =>
      CredAttempt.withFallback (CredKind.sshKey username (home ++ "/.ssh/id_rsa"))
        CredKind.defaultCred
    | none => CredAttempt.withFallback CredKind.defaultCred CredKind.defaultCred

/-- The credentials callback installed by `fetch_from_remote`
(`src/core/git_operations.rs`, lines 205-237). -/
def fetchCredCallback (home : String) (info : RepositoryInfo)
    (usernameFromUrl : Option String) : CredAttempt :=
  match info.auth_type with
  | AuthType.SSH =>
    CredAttempt.direct (CredKind.sshKey (usernameFromUrl.getD "git") info.ssh_key_path)
  | AuthType.Token =>
    CredAttempt.direct (CredKind.userpassPlaintext "token" info.auth_token)
  | AuthType.Default =>
    match usernameFromUrl with
    | some username =>
      CredAttempt.withFallback (CredKind.sshKey username (home ++ "/.ssh/id_rsa"))
        CredKind.defaultCred
    | none => CredAttempt.withFallback CredKind.defaultCred CredKind.defaultCred

/-- The credentials callback installed by `create_and_push_tag`
(`src/core/git_operations.rs`, lines 283-315). -/
def tagCredCallback (home : String) (info : RepositoryInfo)
    (usernameFromUrl : Option String) : CredAttempt :=
  match info.auth_type with
  | AuthType.SSH =>
    CredAttempt.direct (CredKind.sshKey (usernameFromUrl.getD "git") info.ssh_key_path)
  | AuthType.Token =>
    CredAttempt.direct (CredKind.userpassPlaintext "token" info.auth_token)
  | AuthType.Default =>
    match usernameFromUrl with
    | some username =>
      CredAttempt.withFallback (CredKind.sshKey username (home ++ "/.ssh/id_rsa"))
        CredKind.defaultCred
    | none => CredAttempt.withFallback CredKind.defaultCred CredKind.defaultCred

/-- The credentials callback installed by `clone_repository`
(`src/core/git_operations.rs`, lines 466-499): in Token mode the token is
passed as the username with the fixed string "x-oauth-basic" as password. -/
def cloneCredCallback (home : String) (info : RepositoryInfo)
    (usernameFromUrl : Option String) : CredAttempt :=
  match info.auth_type with
  | AuthType.SSH =>
    CredAttempt.direct (CredKind.sshKey (usernameFromUrl.getD "git") info.ssh_key_path)
  | AuthType.Token =>
    CredAttempt.direct (CredKind.userpassPlaintext info.auth_token "x-oauth-basic")
  | AuthType.Default =>
    match usernameFromUrl with
    | some username =>
      CredAttempt.withFallback (CredKind.sshKey username (home ++ "/.ssh/id_rsa"))
        CredKind.defaultCred
    | none => CredAttempt.withFallback CredKind.defaultCred CredKind.defaultCred

/-- Oracle for the external version-control engine: each field is the
outcome the engine would report for the corresponding primitive, with
errors modelled by their display strings. -/
structure GitEngine where
  open_res : Except String Unit
  add_res : Except String Unit
  commit_res : Except String Unit
  remote_res : String → String → Except String Unit
  push_res : RepositoryInfo → String → Except String Unit
  fetch_res : RepositoryInfo → String → Except String Unit
  find_ref_res : Except String Unit
  ref_to_annotated_res : Except String Unit
  merge_res : Except String Unit
  index_res : Except String Unit
  has_conflicts : Bool

/-- `add_all_changes` from `src/core/git_operations.rs` (stage all paths). -/
def add_all_changes (eng : GitEngine) : Except String Unit :=
  eng.add_res

/-- `commit_changes` from `src/core/git_operations.rs`; the commit message
does not influence success or failure of the engine oracle. -/
def commit_changes (eng : GitEngine) (_message : String) : Except String Unit :=
  eng.commit_res

/-- `push_to_remote` from `src/core/git_operations.rs`: find-or-create the
named remote (errors propagate raw via the question-mark operator), then
push; a push failure is wrapped into a classified, formatted message. -/
def push_to_remote (eng : GitEngine) (repoInfo : RepositoryInfo) (branch : String) :
    Except String Unit :=
  match eng.remote_res repoInfo.name repoInfo.url with
  | Except.error e => Except.error e
  | Except.ok _ =>
    match eng.push_res repoInfo branch with
    | Except.ok _ => Except.ok ()
    | Except.error e =>
      Except.error (handle_git_error "pushing to" repoInfo e).format_user_message

/-- `pull_from_remote` from `src/core/git_operations.rs`: remote, fetch,
find `FETCH_HEAD`, convert it, merge, inspect the index; if the post-merge
index has conflicts the pull fails with the dedicated message. -/
def pull_from_remote (eng : GitEngine) (repoInfo : RepositoryInfo) (branch : String) :
    Except String Unit :=
  match eng.remote_res repoInfo.name repoInfo.url with
  | Except.error e => Except.error e
  | Except.ok _ =>
    match eng.fetch_res repoInfo branch with
    | Except.error e =>
      Except.error (handle_git_error "fetching from" repoInfo e).format_user_message
    | Except.ok _ =>
      match eng.find_ref_res with
      | Except.error e =>
        Except.error (handle_git_error "finding FETCH_HEAD in" repoInfo e).format_user_message
      | Except.ok _ =>
        match eng.ref_to_annotated_res with
        | Except.error e =>
          Except.error
            (handle_git_error "converting FETCH_HEAD in" repoInfo e).format_user_message
        | Except.ok _ =>
          match eng.merge_res with
          | Except.error e =>
            Except.error (handle_git_error "merging in" repoInfo e).format_user_message
          | Except.ok _ =>
            match eng.index_res with
            | Except.error e =>
              Except.error
                (handle_git_error "checking index in" repoInfo e).format_user_message
            | Except.ok _ =>
              if eng.has_conflicts then Except.error "Merge conflicts detected"
              else Except.ok ()

/-- `fetch_from_remote` from `src/core/git_operations.rs`: fetch only. -/
def fetch_from_remote (eng : GitEngine) (repoInfo : RepositoryInfo) (branch : String) :
    Except String Unit :=
  match eng.remote_res repoInfo.name repoInfo.url with
  | Except.error e => Except.error e
  | Except.ok _ =>
    match eng.fetch_res repoInfo branch with
    | Except.error e =>
      Except.error (handle_git_error "fetching from" repoInfo e).format_user_message
    | Except.ok _ => Except.ok ()

/-- `push_to_all_repositories` from `src/core/git_operations.rs`: open,
stage and commit abort with a single outcome on failure; then one outcome
per registry endpoint in insertion order. -/
def push_to_all_repositories (eng : GitEngine) (config : RepoConfig)
    (commitMessage branch : String) : List (String × String) :=
  match eng.open_res with
  | Except.error e => [("Repository", "Failed to open repository: " ++ e)]
  | Except.ok _ =>
    match add_all_changes eng with
    | Except.error e => [("Repository", "Failed to add changes: " ++ e)]
    | Except.ok _ =>
      match commit_changes eng commitMessage with
      | Except.error e => [("Repository", "Failed to commit changes: " ++ e)]
      | Except.ok _ =>
        config.repositories.map (fun repoInfo =>
          format_error_result "pushing to" repoInfo (push_to_remote eng repoInfo branch))

/-- `pull_from_all_repositories` from `src/core/git_operations.rs`. -/
def pull_from_all_repositories (eng : GitEngine) (config : RepoConfig)
    (branch : String) : List (String × String) :=
  match eng.open_res with
  | Except.error e => [("Repository", "Failed to open repository: " ++ e)]
  | Except.ok _ =>
    config.repositories.map (fun repoInfo =>
      format_error_result "pulling from" repoInfo (pull_from_remote eng repoInfo branch))

/-- `fetch_from_all_repositories` from `src/core/git_operations.rs`. -/
def fetch_from_all_repositories (eng : GitEngine) (config : RepoConfig)
    (branch : String) : List (String × String) :=
  match eng.open_res with
  | Except.error e => [("Repository", "Failed to open repository: " ++ e)]
  | Except.ok _ =>
    config.repositories.map (fun repoInfo =>
      format_error_result "fetching from" repoInfo (fetch_from_remote eng repoInfo branch))

/-- `push_to_group_repositories` from `src/core/batch_operations.rs`:
empty-subset guard first; on a successful open, stage and commit errors are
each recorded as an outcome and execution continues; then one push outcome
per group endpoint; on a failed open, a note outcome followed by simulated
per-endpoint outcomes. -/
def push_to_group_repositories (eng : GitEngine) (config : RepoConfig)
    (groupName commitMessage branch : String) : List (String × String) :=
  let repositories := config.get_repositories_in_group groupName
  if repositories.isEmpty then
    [(groupName, "No repositories found in group")]
  else
    match eng.open_res with
    | Except.ok _ =>
      (match add_all_changes eng with
        | Except.error e => [("Repository", "Failed to add changes: " ++ e)]
        | Except.ok _ => []) ++
      (match commit_changes eng commitMessage with
        | Except.error e => [("Repository", "Failed to commit changes: " ++ e)]
        | Except.ok _ => []) ++
      repositories.map (fun repoInfo =>
        format_error_result "pushing to" repoInfo (push_to_remote eng repoInfo branch))
    | Except.error _ =>
      ("Repository", "Note: No local repository found, simulating remote operations only") ::
      repositories.map (fun repoInfo =>
        (repoInfo.name, "Simulated push result for testing environment"))

/-- `pull_from_group_repositories` from `src/core/batch_operations.rs`. -/
def pull_from_group_repositories (eng : GitEngine) (config : RepoConfig)
    (groupName branch : String) : List (String × String) :=
  let repositories := config.get_repositories_in_group groupName
  if repositories.isEmpty then
    [(groupName, "No repositories found in group")]
  else
    match eng.open_res with
    | Except.ok _ =>
      repositories.map (fun repoInfo =>
        format_error_result "pulling from" repoInfo (pull_from_remote eng repoInfo branch))
    | Except.error _ =>
      repositories.map (fun repoInfo =>
        (repoInfo.name, "Simulated pull result for testing environment"))

/-- `fetch_from_group_repositories` from `src/core/batch_operations.rs`. -/
def fetch_from_group_repositories (eng : GitEngine) (config : RepoConfig)
    (groupName branch : String) : List (String × String) :=
  let repositories := config.get_repositories_in_group groupName
  if repositories.isEmpty then
    [(groupName, "No repositories found in group")]
  else
    match eng.open_res with
    | Except.ok _ =>
      repositories.map (fun repoInfo =>
        format_error_result "fetching from" repoInfo (fetch_from_remote eng repoInfo branch))
    | Except.error _ =>
      repositories.map (fun repoInfo =>
        (repoInfo.name, "Simulated fetch result for testing environment"))

/-- Modelled from the spec (section 4.3): the fixed per-kind user-message
templates exactly as the spec writes them, including the trailing period of
the Unknown template. Used only to compare the source formatter against the
spec's wording. -/
def specTemplate (kind : ErrorType) (op name rawMessage : String) : String :=
  match kind with
  | ErrorType.Authentication =>
    "Authentication failed for repository \x27" ++ name ++
      "\x27. Please check your credentials."
  | ErrorType.Network =>
    "Network error while " ++ op ++ " repository \x27" ++ name ++
      "\x27. Please check your connection."
  | ErrorType.Repository =>
    "Repository error while " ++ op ++ " \x27" ++ name ++
      "\x27. The repository may be corrupted or inaccessible."
  | ErrorType.Permission =>
    "Permission denied while " ++ op ++ " repository \x27" ++ name ++
      "\x27. Check your access rights."
  | ErrorType.Unknown =>
    "Error while " ++ op ++ " repository \x27" ++ name ++ "\x27: " ++ rawMessage ++ "."

/-- Modelled from the spec (section 4.3): classification by case-insensitive
substring containment over the spec's keyword lists, in the spec's precedence
order. Used only to compare the source classifier against the spec's wording. -/
def classifySpecCI (m : String) : ErrorType :=
  let low := toLowerString m
  if containsSub "authentication" low || containsSub "401" low ||
     containsSub "403" low || containsSub "unauthorized" low then
    ErrorType.Authentication
  else if containsSub "network" low || containsSub "connection" low ||
          containsSub "timeout" low then
    ErrorType.Network
  else if containsSub "permission" low || containsSub "access denied" low then
    ErrorType.Permission
  else if containsSub "repository" low || containsSub "not found" low ||
          containsSub "corrupt" low then
    ErrorType.Repository
  else
    ErrorType.Unknown

/-- Generic first-match classifier over an ordered table of keyword lists:
the kind of the first row one of whose keywords occurs in the message, else
Unknown. -/
def firstMatchClassify : List (List String × ErrorType) → String → ErrorType
  | [], _ => ErrorType.Unknown
  | (kws, k) :: rest, m =>
    if kws.any (fun kw => containsSub kw m) then k else firstMatchClassify rest m

/-- The exact keyword variants checked by `handle_git_error`, row per kind,
in the source's precedence order. -/
def keywordTable : List (List String × ErrorType) :=
  [(["authentication", "Authentication", "401", "403", "Unauthorized"],
      ErrorType.Authentication),
   (["network", "Network", "connection", "Connection", "timeout", "Timeout"],
      ErrorType.Network),
   (["permission", "Permission", "access denied"], ErrorType.Permission),
   (["repository", "Repository", "not found", "corrupt"], ErrorType.Repository)]

/-- A copy of a `GitEngine` whose staging step succeeds; every other field
is taken unchanged from the given engine. -/
def GitEngine.withAddOk (eng : GitEngine) : GitEngine :=
  ⟨eng.open_res, Except.ok (), eng.commit_res, eng.remote_res, eng.push_res,
    eng.fetch_res, eng.find_ref_res, eng.ref_to_annotated_res, eng.merge_res,
    eng.index_res, eng.has_conflicts⟩

/-- Test fixture: an engine for which every primitive succeeds. -/
def engAllOk : GitEngine :=
  ⟨Except.ok (), Except.ok (), Except.ok (), fun _ _ => Except.ok (),
    fun _ _ => Except.ok (), fun _ _ => Except.ok (), Except.ok (), Except.ok (),
    Except.ok (), Except.ok (), false⟩

/-- Test fixture: an engine whose staging step fails with message "boom" and
whose push of endpoint "a" fails with raw message "x". -/
def engStageFail : GitEngine :=
  ⟨Except.ok (), Except.error "boom", Except.ok (), fun _ _ => Except.ok (),
    fun repoInfo _ => if repoInfo.name == "a" then Except.error "x" else Except.ok (),
    fun _ _ => Except.ok (), Except.ok (), Except.ok (), Except.ok (), Except.ok (), false⟩

/-- Test fixture: an engine where everything succeeds except the push of
endpoint "a", which fails with raw message "x". -/
def engPushAFails : GitEngine :=
  ⟨Except.ok (), Except.ok (), Except.ok (), fun _ _ => Except.ok (),
    fun repoInfo _ => if repoInfo.name == "a" then Except.error "x" else Except.ok (),
    fun _ _ => Except.ok (), Except.ok (), Except.ok (), Except.ok (), Except.ok (), false⟩

/-- Test fixture: an engine where pull steps succeed but the post-merge
index reports unresolved conflicts. -/
def engConflicts : GitEngine :=
  ⟨Except.ok (), Except.ok (), Except.ok (), fun _ _ => Except.ok (),
    fun _ _ => Except.ok (), fun _ _ => Except.ok (), Except.ok (), Except.ok (),
    Except.ok (), Except.ok (), true⟩

/-- Test fixture: registry with endpoints `a`, `b`, `c` and group `G` whose
members are `a` and `c`. -/
def cfgABC : RepoConfig :=
  ⟨[RepositoryInfo.new "a" "https://h/a.git",
    RepositoryInfo.new "b" "https://h/b.git",
    RepositoryInfo.new "c" "https://h/c.git"],
   "default",
   [⟨"G", "demo", ["a", "c"]⟩]⟩

/-- The character data of a concatenation is the concatenation of the data. -/
theorem stringDataAppend (a b : String) : (a ++ b).data = a.data ++ b.data := rfl

/-- Test fixture: registry with endpoints `a` and `b` where endpoint `a`
belongs to the two groups `g1` and `g2`. -/
def cfgTwoGroups : RepoConfig :=
  ⟨[RepositoryInfo.new "a" "https://h/a.git",
    RepositoryInfo.new "b" "https://h/b.git"],
   "default",
   [⟨"g1", "", ["a", "b"]⟩, ⟨"g2", "", ["a"]⟩]⟩

/-- Test fixture: a Token-mode endpoint. -/
def infoTok : RepositoryInfo :=
  ⟨"a", "https://h/a.git", AuthType.Token, "SECRET", "", ""⟩

/-- Test fixture: an engine whose local commit step fails with message
"cboom"; everything else succeeds. -/
def engCommitFail : GitEngine :=
  ⟨Except.ok (), Except.ok (), Except.error "cboom", fun _ _ => Except.ok (),
    fun _ _ => Except.ok (), fun _ _ => Except.ok (), Except.ok (), Except.ok (),
    Except.ok (), Except.ok (), false⟩

/-- The C2 batch contract for a group push whose local preparation
succeeded: one outcome per endpoint of the resolved subset (the group's
members in registry insertion order), in subset order, named after the
endpoints; the number of non-"Success" messages equals the number of
endpoints whose push operation fails; and the returned outcomes are
unchanged under any modification of the engine's remote behaviour outside
the subset — endpoints not in the group are never consulted. -/
def groupPushContract (eng : GitEngine) (cfg : RepoConfig) (g m br : String) : Prop :=
  (push_to_group_repositories eng cfg g m br).length =
    (cfg.get_repositories_in_group g).length ∧
  (push_to_group_repositories eng cfg g m br).map Prod.fst =
    (cfg.get_repositories_in_group g).map RepositoryInfo.name ∧
  (push_to_group_repositories eng cfg g m br).countP
      (fun p => decide (p.2 ≠ "Success")) =
    (cfg.get_repositories_in_group g).countP (fun repoInfo =>
      match push_to_remote eng repoInfo br with
      | Except.ok _ => false
      | Except.error _ => true) ∧
  ∀ eng2 : GitEngine,
    eng2.open_res = eng.open_res → eng2.add_res = eng.add_res →
    eng2.commit_res = eng.commit_res →
    (∀ repoInfo ∈ cfg.get_repositories_in_group g,
      eng2.remote_res repoInfo.name repoInfo.url =
        eng.remote_res repoInfo.name repoInfo.url) →
    (∀ repoInfo ∈ cfg.get_repositories_in_group g,
      eng2.push_res repoInfo br = eng.push_res repoInfo br) →
    push_to_group_repositories eng2 cfg g m br = push_to_group_repositories eng cfg g m br

/-- Two strings whose character data start with different characters differ. -/
theorem neOfDataHead (s t : String) (c d : Char) (hs : s.data.head? = some c)
    (ht : t.data.head? = some d) (hcd : c ≠ d) : s ≠ t := by
  intro h
  rw [h, ht] at hs
  exact hcd (Option.some.inj hs.symm)

/-- No rendered user message equals the literal success marker: every
template begins with a character other than `S`. -/
theorem formatUserMessageNeSuccess (e : GitOperationError) :
    e.format_user_message ≠ "Success" := by
  obtain ⟨op, rep, msg, ty⟩ := e
  cases ty with
  | Authentication => exact neOfDataHead _ _ 'A' 'S' rfl rfl (by decide)
  | Network => exact neOfDataHead _ _ 'N' 'S' rfl rfl (by decide)
  | Repository => exact neOfDataHead _ _ 'R' 'S' rfl rfl (by decide)
  | Permission => exact neOfDataHead _ _ 'P' 'S' rfl rfl (by decide)
  | Unknown => exact neOfDataHead _ _ 'E' 'S' rfl rfl (by decide)

/-- The first component of a per-endpoint outcome is the endpoint's name. -/
theorem formatErrorResultFst (op : String) (repoInfo : RepositoryInfo)
    (r : Except String Unit) : (format_error_result op repoInfo r).1 = repoInfo.name := by
  cases r <;> rfl

/-- A per-endpoint outcome carries the success marker iff the operation
succeeded. -/
theorem formatErrorResultSuccessIff (op : String) (repoInfo : RepositoryInfo)
    (r : Except String Unit) :
    (format_error_result op repoInfo r).2 = "Success" ↔ r = Except.ok () := by
  cases r with
  | ok u => cases u; simp [format_error_result]
  | error e =>
    simp only [format_error_result]
    constructor
    · intro h
      exact absurd h (formatUserMessageNeSuccess _)
    · intro h
      cases h

/-- C1 counterexample: with a non-empty group, a successfully opened local
repository and a failing staging step, the group push batch does not abort:
it records the local failure and still pushes to every group endpoint,
returning more than one outcome. -/
theorem c1AbortCounterexample :
    push_to_group_repositories engStageFail cfgABC "G" "m" "main" =
      [("Repository", "Failed to add changes: boom"),
       ("a", "Repository error while pushing to \x27a\x27. The repository may be corrupted or inaccessible."),
       ("c", "Success")] ∧
    (push_to_group_repositories engStageFail cfgABC "G" "m" "main").length ≠ 1 := by
  constructor <;> decide

/-- C1 (amended): `push_to_all_repositories` aborts on a staging or commit
failure with a single outcome describing the local failure and no push
attempted; `push_to_group_repositories`, by contrast, merely records the
staging failure as an extra leading outcome and then proceeds exactly as if
staging had succeeded — commit and every per-endpoint push included. -/
theorem c1LocalFailurePolicy :
    (∀ (eng : GitEngine) (cfg : RepoConfig) (m br e : String),
      eng.open_res = Except.ok () → eng.add_res = Except.error e →
      push_to_all_repositories eng cfg m br =
        [("Repository", "Failed to add changes: " ++ e)]) ∧
    (∀ (eng : GitEngine) (cfg : RepoConfig) (m br e : String),
      eng.open_res = Except.ok () → eng.add_res = Except.ok () →
      eng.commit_res = Except.error e →
      push_to_all_repositories eng cfg m br =
        [("Repository", "Failed to commit changes: " ++ e)]) ∧
    (∀ (eng : GitEngine) (cfg : RepoConfig) (g m br e : String),
      cfg.get_repositories_in_group g ≠ [] →
      eng.open_res = Except.ok () → eng.add_res = Except.error e →
      push_to_group_repositories eng cfg g m br =
        ("Repository", "Failed to add changes: " ++ e) ::
          push_to_group_repositories eng.withAddOk cfg g m br) := by
  refine ⟨?_, ?_, ?_⟩
  · intro eng cfg m br e hopen hadd
    simp [push_to_all_repositories, add_all_changes, hopen, hadd]
  · intro eng cfg m br e hopen hadd hcommit
    simp [push_to_all_repositories, add_all_changes, commit_changes, hopen, hadd, hcommit]
  · intro eng cfg g m br e hne hopen hadd
    cases hrep : cfg.get_repositories_in_group g with
    | nil => exact absurd hrep hne
    | cons a l =>
      simp [push_to_group_repositories, GitEngine.withAddOk, add_all_changes,
        commit_changes, hrep, hopen, hadd, push_to_remote]

/-- Witness for C1 at concrete engines: staging failure and commit failure
each abort the all-repositories push with the corresponding single outcome,
and the group push instead prepends the staging failure to the outcomes of
the staging-succeeded run. -/
theorem c1LocalFailurePolicyWitness :
    push_to_all_repositories engStageFail cfgABC "m" "main" =
      [("Repository", "Failed to add changes: boom")] ∧
    push_to_all_repositories engCommitFail cfgABC "m" "main" =
      [("Repository", "Failed to commit changes: cboom")] ∧
    push_to_group_repositories engStageFail cfgABC "G" "m" "main" =
      ("Repository", "Failed to add changes: boom") ::
        push_to_group_repositories engStageFail.withAddOk cfgABC "G" "m" "main" :=
  ⟨c1LocalFailurePolicy.1 engStageFail cfgABC "m" "main" "boom" rfl rfl,
   c1LocalFailurePolicy.2.1 engCommitFail cfgABC "m" "main" "cboom" rfl rfl rfl,
   c1LocalFailurePolicy.2.2 engStageFail cfgABC "G" "m" "main" "boom" (by decide) rfl rfl⟩

/-- C3 counterexample: under the All selector with an empty registry, the
push batch returns zero outcomes, not one, and it does touch the local
repository — a staging failure is visible in the returned outcomes even
though the endpoint subset is empty. -/
theorem c3AllSelectorCounterexample :
    push_to_all_repositories engAllOk RepoConfig.new "m" "main" = [] ∧
    (push_to_all_repositories engAllOk RepoConfig.new "m" "main").length ≠ 1 ∧
    push_to_all_repositories engStageFail RepoConfig.new "m" "main" =
      [("Repository", "Failed to add changes: boom")] := by
  refine ⟨by decide, by decide, by decide⟩

/-- C3 (amended): for the Group selector, an empty or non-existent group
yields exactly one outcome with message "No repositories found in group",
for any engine whatsoever (so no local-repository step is consulted), for
push, pull and fetch alike; the All-selector push path has no empty-subset
guard: with an empty registry and successful local steps it stages and
commits and returns zero outcomes. -/
theorem c3EmptySubsetPolicy :
    (∀ (eng : GitEngine) (cfg : RepoConfig) (g m br : String),
      cfg.get_repositories_in_group g = [] →
      push_to_group_repositories eng cfg g m br =
        [(g, "No repositories found in group")]) ∧
    (∀ (eng : GitEngine) (cfg : RepoConfig) (g br : String),
      cfg.get_repositories_in_group g = [] →
      pull_from_group_repositories eng cfg g br =
        [(g, "No repositories found in group")]) ∧
    (∀ (eng : GitEngine) (cfg : RepoConfig) (g br : String),
      cfg.get_repositories_in_group g = [] →
      fetch_from_group_repositories eng cfg g br =
        [(g, "No repositories found in group")]) ∧
    (∀ (eng : GitEngine) (cfg : RepoConfig) (m br : String),
      cfg.repositories = [] →
      eng.open_res = Except.ok () → eng.add_res = Except.ok () →
      eng.commit_res = Except.ok () →
      push_to_all_repositories eng cfg m br = []) := by
  refine ⟨?_, ?_, ?_, ?_⟩
  · intro eng cfg g m br hrep
    simp [push_to_group_repositories, hrep]
  · intro eng cfg g br hrep
    simp [pull_from_group_repositories, hrep]
  · intro eng cfg g br hrep
    simp [fetch_from_group_repositories, hrep]
  · intro eng cfg m br hrep hopen hadd hcommit
    simp [push_to_all_repositories, add_all_changes, commit_changes, hopen, hadd,
      hcommit, hrep]

/-- Witness for C3 at a concrete registry: the non-existent group "H"
yields the single "No repositories found in group" outcome for push, pull
and fetch, and the all-repositories push over an empty registry yields
zero outcomes. -/
theorem c3EmptySubsetPolicyWitness :
    push_to_group_repositories engAllOk cfgABC "H" "m" "main" =
      [("H", "No repositories found in group")] ∧
    pull_from_group_repositories engAllOk cfgABC "H" "main" =
      [("H", "No repositories found in group")] ∧
    fetch_from_group_repositories engAllOk cfgABC "H" "main" =
      [("H", "No repositories found in group")] ∧
    push_to_all_repositories engAllOk RepoConfig.new "m" "main" = [] :=
  ⟨c3EmptySubsetPolicy.1 engAllOk cfgABC "H" "m" "main" (by decide),
   c3EmptySubsetPolicy.2.1 engAllOk cfgABC "H" "main" (by decide),
   c3EmptySubsetPolicy.2.2.1 engAllOk cfgABC "H" "main" (by decide),
   c3EmptySubsetPolicy.2.2.2 engAllOk RepoConfig.new "m" "main" rfl rfl rfl rfl⟩

/-- On a successful open, stage and commit, the group push batch is exactly
the per-endpoint outcome list over the resolved subset. -/
theorem pushToGroupMapForm (eng : GitEngine) (cfg : RepoConfig) (g m br : String)
    (hne : cfg.get_repositories_in_group g ≠ [])
    (hopen : eng.open_res = Except.ok ()) (hadd : eng.add_res = Except.ok ())
    (hcommit : eng.commit_res = Except.ok ()) :
    push_to_group_repositories eng cfg g m br =
      (cfg.get_repositories_in_group g).map (fun repoInfo =>
        format_error_result "pushing to" repoInfo (push_to_remote eng repoInfo br)) := by
  cases hrep : cfg.get_repositories_in_group g with
  | nil => exact absurd hrep hne
  | cons a l =>
    simp [push_to_group_repositories, add_all_changes, commit_changes, hrep, hopen,
      hadd, hcommit]

/-- C2: for a non-empty resolved group subset with successful local
preparation, the group push batch satisfies the full batch contract:
exactly one outcome per subset endpoint in subset order, non-"Success"
messages exactly at the failing endpoints, and no dependence on engine
behaviour at endpoints outside the group. -/
theorem c2GroupBatchOutcomes (eng : GitEngine) (cfg : RepoConfig) (g m br : String)
    (hne : cfg.get_repositories_in_group g ≠ [])
    (hopen : eng.open_res = Except.ok ()) (hadd : eng.add_res = Except.ok ())
    (hcommit : eng.commit_res = Except.ok ()) :
    groupPushContract eng cfg g m br := by
  have hout := pushToGroupMapForm eng cfg g m br hne hopen hadd hcommit
  refine ⟨?_, ?_, ?_, ?_⟩
  · rw [hout, List.length_map]
  · rw [hout, List.map_map]
    apply List.map_congr_left
    intro repoInfo _
    exact formatErrorResultFst "pushing to" repoInfo (push_to_remote eng repoInfo br)
  · rw [hout, List.countP_map]
    apply List.countP_congr
    intro repoInfo _
    cases hp : push_to_remote eng repoInfo br with
    | ok u =>
      cases u
      simp [format_error_result, hp]
    | error e =>
      simp only [Function.comp_apply, hp, format_error_result]
      simp [formatUserMessageNeSuccess]
  · intro eng2 h1 h2 h3 h4 h5
    have hout2 := pushToGroupMapForm eng2 cfg g m br hne (h1.trans hopen)
      (h2.trans hadd) (h3.trans hcommit)
    rw [hout, hout2]
    apply List.map_congr_left
    intro repoInfo hmem
    unfold push_to_remote
    rw [h4 repoInfo hmem, h5 repoInfo hmem]

/-- Witness for C2: registry `[a, b, c]`, group `G = {a, c}`, engine whose
push fails exactly on endpoint `a`. -/
theorem c2GroupBatchOutcomesWitness : groupPushContract engPushAFails cfgABC "G" "m" "main" :=
  c2GroupBatchOutcomes engPushAFails cfgABC "G" "m" "main" (by decide) rfl rfl rfl

/-- C4 counterexample: the Unknown-kind formatter does not render the
spec's template character for character — the code's output has no
trailing period, the spec's template ends with one. -/
theorem c4UnknownTemplateCounterexample :
    GitOperationError.format_user_message ⟨"pushing to", "a", "boom", ErrorType.Unknown⟩ =
      "Error while pushing to repository \x27a\x27: boom" ∧
    GitOperationError.format_user_message ⟨"pushing to", "a", "boom", ErrorType.Unknown⟩ ≠
      specTemplate ErrorType.Unknown "pushing to" "a" "boom" := by
  constructor
  · rfl
  · decide

/-- C4 (amended): for every operation verb, endpoint name and raw message,
the formatter renders exactly the spec's fixed template for the
Authentication, Network, Repository and Permission kinds, while for the
Unknown kind it renders the spec's template minus the trailing period
(appending "." recovers the spec's template verbatim). -/
theorem c4FormatterMatchesTemplates (op name rawMessage : String) :
    GitOperationError.format_user_message ⟨op, name, rawMessage, ErrorType.Authentication⟩ =
      specTemplate ErrorType.Authentication op name rawMessage ∧
    GitOperationError.format_user_message ⟨op, name, rawMessage, ErrorType.Network⟩ =
      specTemplate ErrorType.Network op name rawMessage ∧
    GitOperationError.format_user_message ⟨op, name, rawMessage, ErrorType.Repository⟩ =
      specTemplate ErrorType.Repository op name rawMessage ∧
    GitOperationError.format_user_message ⟨op, name, rawMessage, ErrorType.Permission⟩ =
      specTemplate ErrorType.Permission op name rawMessage ∧
    GitOperationError.format_user_message ⟨op, name, rawMessage, ErrorType.Unknown⟩ ++ "." =
      specTemplate ErrorType.Unknown op name rawMessage :=
  ⟨rfl, rfl, rfl, rfl, rfl⟩

/-- C5 counterexample: classification is not case-insensitive. Under the
spec's case-insensitive containment, the raw message "unauthorized" would
classify as Authentication; the code classifies it as Unknown because it
only checks the capitalized variant "Unauthorized". -/
theorem c5CaseSensitivityCounterexample :
    classifySpecCI "unauthorized" = ErrorType.Authentication ∧
    classifyErrorMessage "unauthorized" = ErrorType.Unknown := by
  constructor <;> decide

/-- C5 (amended): classification is decided purely by case-sensitive
substring containment over the fixed per-kind keyword lists actually
present in the code (lowercase and capitalized variants for most keywords,
"Unauthorized" only capitalized, "access denied", "not found" and
"corrupt" only lowercase), with first-match-wins precedence Authentication,
Network, Permission, Repository, else Unknown; any message containing
"403" classifies as Authentication regardless of other cues. -/
theorem c5ClassificationFirstMatch (m : String) :
    classifyErrorMessage m = firstMatchClassify keywordTable m ∧
    (containsSub "403" m = true → classifyErrorMessage m = ErrorType.Authentication) := by
  constructor
  · simp only [classifyErrorMessage, firstMatchClassify, keywordTable, List.any_cons,
      List.any_nil, Bool.or_false, Bool.or_assoc]
  · intro h
    unfold classifyErrorMessage
    rw [h]
    simp

/-- Witness for C5: a message containing both "403" and "repository"
classifies as Authentication, not Repository. -/
theorem c5ClassificationFirstMatchWitness :
    classifyErrorMessage "403 in repository" =
      firstMatchClassify keywordTable "403 in repository" ∧
    classifyErrorMessage "403 in repository" = ErrorType.Authentication :=
  ⟨(c5ClassificationFirstMatch "403 in repository").1,
   (c5ClassificationFirstMatch "403 in repository").2 (by decide)⟩

/-- C6: when the remote, fetch, FETCH_HEAD lookup, conversion, merge and
index inspection all succeed but the post-merge index has unresolved
conflict entries, the pull fails with the dedicated explicit error
"Merge conflicts detected", whose classification is Unknown — in
particular it is not folded into the Repository kind. -/
theorem c6MergeConflictDedicatedError (eng : GitEngine) (repoInfo : RepositoryInfo)
    (branch : String)
    (hr : eng.remote_res repoInfo.name repoInfo.url = Except.ok ())
    (hf : eng.fetch_res repoInfo branch = Except.ok ())
    (hfr : eng.find_ref_res = Except.ok ())
    (hra : eng.ref_to_annotated_res = Except.ok ())
    (hm : eng.merge_res = Except.ok ())
    (hi : eng.index_res = Except.ok ())
    (hc : eng.has_conflicts = true) :
    pull_from_remote eng repoInfo branch = Except.error "Merge conflicts detected" ∧
    classifyErrorMessage "Merge conflicts detected" = ErrorType.Unknown ∧
    ErrorType.Unknown ≠ ErrorType.Repository := by
  refine ⟨?_, by decide, by decide⟩
  unfold pull_from_remote
  rw [hr, hf, hfr, hra, hm, hi, hc]
  rfl

/-- Witness for C6 at a concrete conflicting engine. -/
theorem c6MergeConflictDedicatedErrorWitness :
    pull_from_remote engConflicts infoTok "main" = Except.error "Merge conflicts detected" ∧
    classifyErrorMessage "Merge conflicts detected" = ErrorType.Unknown ∧
    ErrorType.Unknown ≠ ErrorType.Repository :=
  c6MergeConflictDedicatedError engConflicts infoTok "main" rfl rfl rfl rfl rfl rfl rfl

/-- C7: for a Token-mode endpoint, the credentials callbacks of push, pull,
fetch and tag all supply the fixed username "token" with the endpoint's
`auth_token` in the password slot, while the clone callback inverts the
convention, supplying the `auth_token` as username and the fixed string
"x-oauth-basic" in the password slot. -/
theorem c7TokenCredentialConvention (home : String) (info : RepositoryInfo)
    (u : Option String) (h : info.auth_type = AuthType.Token) :
    pushCredCallback home info u =
      CredAttempt.direct (CredKind.userpassPlaintext "token" info.auth_token) ∧
    pullCredCallback home info u =
      CredAttempt.direct (CredKind.userpassPlaintext "token" info.auth_token) ∧
    fetchCredCallback home info u =
      CredAttempt.direct (CredKind.userpassPlaintext "token" info.auth_token) ∧
    tagCredCallback home info u =
      CredAttempt.direct (CredKind.userpassPlaintext "token" info.auth_token) ∧
    cloneCredCallback home info u =
      CredAttempt.direct (CredKind.userpassPlaintext info.auth_token "x-oauth-basic") := by
  obtain ⟨n, url, ty, tok, key, gr⟩ := info
  cases ty with
  | SSH => exact AuthType.noConfusion h
  | Token => exact ⟨rfl, rfl, rfl, rfl, rfl⟩
  | Default => exact AuthType.noConfusion h

/-- Witness for C7 at a concrete Token-mode endpoint. -/
theorem c7TokenCredentialConventionWitness :
    pushCredCallback "/home/u" infoTok none =
      CredAttempt.direct (CredKind.userpassPlaintext "token" infoTok.auth_token) ∧
    pullCredCallback "/home/u" infoTok none =
      CredAttempt.direct (CredKind.userpassPlaintext "token" infoTok.auth_token) ∧
    fetchCredCallback "/home/u" infoTok none =
      CredAttempt.direct (CredKind.userpassPlaintext "token" infoTok.auth_token) ∧
    tagCredCallback "/home/u" infoTok none =
      CredAttempt.direct (CredKind.userpassPlaintext "token" infoTok.auth_token) ∧
    cloneCredCallback "/home/u" infoTok none =
      CredAttempt.direct (CredKind.userpassPlaintext infoTok.auth_token "x-oauth-basic") :=
  c7TokenCredentialConvention "/home/u" infoTok none rfl

/-- C8: removing the endpoint at a valid index removes its name from the
member list of every group of the resulting registry, while removing a
group leaves the endpoint list unchanged. -/
theorem c8RemoveEndpointPurgesGroups (cfg : RepoConfig) (i : Nat)
    (info : RepositoryInfo) (h : cfg.repositories.get? i = some info) :
    (∀ g ∈ (cfg.remove_repository i).groups, info.name ∉ g.repository_names) ∧
    (∀ groupName, (cfg.remove_group groupName).repositories = cfg.repositories) := by
  obtain ⟨hlt, hget⟩ := List.get?_eq_some.mp h
  constructor
  · intro g hg
    unfold RepoConfig.remove_repository at hg
    rw [dif_pos hlt] at hg
    simp only [List.mem_map] at hg
    obtain ⟨g0, _, rfl⟩ := hg
    rw [← hget]
    simp [RepositoryGroup.remove_repository, List.mem_filter]
  · intro groupName
    rfl

/-- Witness for C8: removing endpoint "a" (index 0) purges it from both
groups `g1` and `g2`. -/
theorem c8RemoveEndpointPurgesGroupsWitness :
    (∀ g ∈ (cfgTwoGroups.remove_repository 0).groups,
      (RepositoryInfo.new "a" "https://h/a.git").name ∉ g.repository_names) ∧
    (∀ groupName,
      (cfgTwoGroups.remove_group groupName).repositories = cfgTwoGroups.repositories) :=
  c8RemoveEndpointPurgesGroups cfgTwoGroups 0 (RepositoryInfo.new "a" "https://h/a.git")
    (by decide)

/-- C9: adding a member to a group is idempotent and duplicates are
silently ignored. Groups are created empty (every name has count 0), the
add and remove operations preserve the at-most-once invariant, adding the
same name twice equals adding it once, and on any group satisfying the
invariant a double add leaves the name present exactly once. -/
theorem c9AddMemberIdempotent :
    (∀ n d x, (RepositoryGroup.new n d).repository_names.count x = 0) ∧
    (∀ (g : RepositoryGroup) x,
      (g.add_repository x).add_repository x = g.add_repository x) ∧
    (∀ (g : RepositoryGroup) x y, g.repository_names.count y ≤ 1 →
      (g.add_repository x).repository_names.count y ≤ 1) ∧
    (∀ (g : RepositoryGroup) x y, g.repository_names.count y ≤ 1 →
      (g.remove_repository x).repository_names.count y ≤ 1) ∧
    (∀ (g : RepositoryGroup) x, g.repository_names.count x ≤ 1 →
      ((g.add_repository x).add_repository x).repository_names.count x = 1) := by
  refine ⟨?_, ?_, ?_, ?_, ?_⟩
  · intro n d x
    simp [RepositoryGroup.new]
  · intro g x
    by_cases hc : x ∈ g.repository_names
    · simp [RepositoryGroup.add_repository, hc]
    · simp [RepositoryGroup.add_repository, hc]
  · intro g x y h
    by_cases hc : x ∈ g.repository_names
    · simpa [RepositoryGroup.add_repository, hc] using h
    · have hcb : g.repository_names.contains x = false := by simpa using hc
      simp only [RepositoryGroup.add_repository, hcb, Bool.false_eq_true, if_false,
        List.count_append]
      by_cases hxy : x = y
      · subst hxy
        have hz : g.repository_names.count x = 0 := List.count_eq_zero.mpr hc
        have hone : List.count x [x] = 1 := by simp
        omega
      · have hz : List.count y [x] = 0 := by
          rw [List.count_eq_zero]
          intro hh
          rw [List.mem_singleton] at hh
          exact hxy hh.symm
        omega
  · intro g x y h
    simp only [RepositoryGroup.remove_repository]
    exact le_trans (List.Sublist.count_le (List.filter_sublist _) y) h
  · intro g x h
    by_cases hc : x ∈ g.repository_names
    · have hpos : 0 < g.repository_names.count x := List.count_pos_iff.mpr hc
      simp [RepositoryGroup.add_repository, hc]
      omega
    · have hz : g.repository_names.count x = 0 := List.count_eq_zero.mpr hc
      simp [RepositoryGroup.add_repository, hc, List.count_append, hz]

/-- Witness for C9: double insertion into a fresh group leaves the name
exactly once, and equals a single insertion. -/
theorem c9AddMemberIdempotentWitness :
    (((RepositoryGroup.new "G" "").add_repository "x").add_repository
        "x").repository_names.count "x" = 1 ∧
    ((RepositoryGroup.new "G" "").add_repository "x").add_repository "x" =
      (RepositoryGroup.new "G" "").add_repository "x" :=
  ⟨c9AddMemberIdempotent.2.2.2.2 (RepositoryGroup.new "G" "") "x" (by decide),
   c9AddMemberIdempotent.2.1 (RepositoryGroup.new "G" "") "x"⟩

/-- C10: removing an endpoint at an index greater than or equal to the
number of endpoints is a silent no-op: the whole registry, endpoint list
and groups included, is unchanged. -/
theorem c10RemoveOutOfRangeNoOp (cfg : RepoConfig) (i : Nat)
    (h : cfg.repositories.length ≤ i) : cfg.remove_repository i = cfg := by
  unfold RepoConfig.remove_repository
  rw [dif_neg (by omega)]

/-- Witness for C10: removing index 3 from a 3-endpoint registry changes
nothing. -/
theorem c10RemoveOutOfRangeNoOpWitness :
    cfgABC.repositories.length ≤ 3 ∧ cfgABC.remove_repository 3 = cfgABC :=
  ⟨by decide, c10RemoveOutOfRangeNoOp cfgABC 3 (by decide)⟩
